import Mathlib

/-!
Verification of `andrei-consumo` (src/consumo.cpp) against its
natural-language specification.

The C++ program launches a single target process, waits for it to exit,
reads its kernel and user CPU times via `GetProcessTimes`, converts the
100-nanosecond tick counts to seconds, and reports an energy estimate
`totalTimeSeconds * 50 W` in Joules.

Shallow embedding choices:
* `double` arithmetic is modelled by exact rational arithmetic over `ℚ`;
* the 64-bit unsigned machine integers (`ULONGLONG`) are modelled by `ℕ`
  with explicit reduction `% 2 ^ 64` where the C++ operation wraps;
* the Win32 calls (`CreateProcessA`, `GetProcessTimes`) are oracles: an
  `OSBehavior` record says whether each call succeeds and what it returns;
* the multi-process monitor registry described by the spec lives in
  Python files that are not part of `src/`; it is modelled from the
  spec's words (clearly marked below).
-/

namespace Consumo

/-- `2 ^ 32`, the modulus of the 32-bit `DWORD` halves of a `FILETIME`. -/
def pow32 : ℕ := 2 ^ 32

/-- `2 ^ 64`, the modulus of 64-bit unsigned (`ULONGLONG`) arithmetic. -/
def pow64 : ℕ := 2 ^ 64

/-- A Win32 `FILETIME`: two 32-bit halves of a 100ns tick count
(`dwLowDateTime`, `dwHighDateTime`), each a `DWORD` (value `< 2 ^ 32`). -/
structure FILETIME where
  dwLowDateTime : ℕ
  dwHighDateTime : ℕ
deriving DecidableEq, Repr

/-- Writing the `LowPart` field of a `ULARGE_INTEGER`: replaces bits 0–31 of
the 64-bit quantity `q` with `v` (a `DWORD`, stored mod `2 ^ 32`). -/
def setLowPart (q v : ℕ) : ℕ := (q / pow32) * pow32 + v % pow32

/-- Writing the `HighPart` field of a `ULARGE_INTEGER`: replaces bits 32–63 of
the 64-bit quantity `q` with `v` (a `DWORD`, stored mod `2 ^ 32`). -/
def setHighPart (q v : ℕ) : ℕ := (v % pow32) * pow32 + q % pow32

/-- `fileTimeToULL` (consumo.cpp lines 27–32): builds a `ULARGE_INTEGER` by
assigning `LowPart := ft.dwLowDateTime` and `HighPart := ft.dwHighDateTime`
and returns its `QuadPart`. -/
def fileTimeToULL (ft : FILETIME) : ℕ :=
  setHighPart (setLowPart 0 ft.dwLowDateTime) ft.dwHighDateTime

/-- `potenciaEstimadaW` (consumo.cpp line 132): the fixed estimated CPU power,
50 watts. -/
def potenciaEstimadaW : ℚ := 50

/-- The spec's Energy Model contract `energy(elapsedSeconds, powerFactor)`:
elapsed time multiplied by the power factor.  The C++ code inlines this as
`totalTimeSeconds * potenciaEstimadaW` (line 133). -/
def energy (elapsedSeconds powerFactor : ℚ) : ℚ := elapsedSeconds * powerFactor

/-- `energiaJoules` (consumo.cpp line 133): the energy the program computes,
`totalTimeSeconds * potenciaEstimadaW`. -/
def energiaJoules (totalTimeSeconds : ℚ) : ℚ := totalTimeSeconds * potenciaEstimadaW

/-- `totalTimeSeconds` (consumo.cpp line 126): the `ULONGLONG` sum
`kernelTime + userTime` (wrapping mod `2 ^ 64`) divided by `10000000.0`
(one second is `10 ^ 7` hundred-nanosecond intervals). -/
def totalTimeSeconds (kernelTime userTime : ℕ) : ℚ :=
  (((kernelTime + userTime) % pow64 : ℕ) : ℚ) / 10000000

/-- The quoting step of the argument loop (consumo.cpp lines 62–67): an
argument containing a space character is surrounded by double quotes,
any other argument is passed through unchanged. -/
def quoteIfSpaces (arg : String) : String :=
  if arg.contains ' ' then "\"" ++ arg ++ "\"" else arg

/-- The command-line construction loop (consumo.cpp lines 59–72): each
argument is appended (quoted when it contains a space) followed by a single
space separator for every argument but the last. -/
def commandLineStr : List String → String
  | [] => ""
  | [a] => quoteIfSpaces a
  | a :: b :: rest => quoteIfSpaces a ++ " " ++ commandLineStr (b :: rest)

/-- Outcome of a run of `main`: which exit path was taken, and for the
success path the reported CPU seconds and energy figure. -/
inductive MainOutcome where
  | usage
  | createError
  | timesError
  | report (totalSeconds energia : ℚ)
deriving DecidableEq, Repr

/-- The oracle for the two fallible Win32 calls: whether `CreateProcessA`
succeeds, and the `(ftKernel, ftUser)` times returned by `GetProcessTimes`
(`none` when that call fails). -/
structure OSBehavior where
  createOk : Bool
  timesResult : Option (FILETIME × FILETIME)
deriving DecidableEq, Repr

/-- The observable result of `main`: its outcome, and the
`(appName, commandLine)` pair handed to `CreateProcessA` (`none` when
`CreateProcessA` was never invoked). -/
structure MainResult where
  outcome : MainOutcome
  createCall : Option (String × String)
deriving DecidableEq, Repr

/-- Exit code of each outcome of `main` (consumo.cpp lines 55, 105, 120, 141). -/
def exitCode : MainOutcome → ℕ
  | .usage => 1
  | .createError => 1
  | .timesError => 1
  | .report _ _ => 0

/-- `main` (consumo.cpp lines 51–142): usage check, command-line
construction, `CreateProcessA`, wait, `GetProcessTimes`, tick-to-second
conversion, and the energy report. -/
def main (argv : List String) (os : OSBehavior) : MainResult :=
  if argv.length < 2 then ⟨.usage, none⟩
  else
    let cmdLine := commandLineStr (argv.drop 1)
    let appName := argv.getD 1 ""
    if !os.createOk then ⟨.createError, some (appName, cmdLine)⟩
    else
      match os.timesResult with
      | none => ⟨.timesError, some (appName, cmdLine)⟩
      | some (ftKernel, ftUser) =>
        let kernelTime := fileTimeToULL ftKernel
        let userTime := fileTimeToULL ftUser
        let t := totalTimeSeconds kernelTime userTime
        ⟨.report t (energiaJoules t), some (appName, cmdLine)⟩

/-- The spec's `energyUnit` conversion constant, stated for comparison with
the code: ≈ 1.3889e-8 MWh per second, i.e. `13889 / 10 ^ 12`. -/
def energyUnitSpec : ℚ := 13889 / 10 ^ 12

/-- Modelled from the spec: the multi-process engine
(`main/energy_monitor.py`, `main/process_detector.py`) is not under `src/`.
A `ProcessRecord` of a snapshot: a process identifier and display name
(spec §3, §6 `listProcesses`). -/
structure ProcessRecord where
  pid : ℕ
  name : String
deriving DecidableEq, Repr

/-- Modelled from the spec: the `MonitorState` of one process (spec §3,
§4.2): accumulated energy, last-sample timestamp, and status
(`active = true` for Active, `false` for Stopped). -/
structure Monitor where
  pid : ℕ
  name : String
  accumulated : ℚ
  lastSample : ℚ
  active : Bool
deriving DecidableEq, Repr

/-- Modelled from the spec: `Monitor.start(record, now)` (spec §4.2):
a fresh Active monitor with `accumulated = 0`, `lastSample = now`. -/
def startMonitor (rec : ProcessRecord) (now : ℚ) : Monitor :=
  ⟨rec.pid, rec.name, 0, now, true⟩

/-- Modelled from the spec: `Monitor.sample(now)` (spec §4.2): adds
`energy(elapsed, powerFactor)` to `accumulated` with clock regressions
clamped to elapsed 0; a no-op when the monitor is Stopped. -/
def sampleMonitor (now : ℚ) (m : Monitor) : Monitor :=
  if m.active then
    { m with
      accumulated := m.accumulated + energy (max (now - m.lastSample) 0) potenciaEstimadaW
      lastSample := now }
  else m

/-- Modelled from the spec: `Monitor.stop(now)` (spec §4.2): a final sample,
then status becomes Stopped. -/
def stopMonitor (now : ℚ) (m : Monitor) : Monitor :=
  { sampleMonitor now m with active := false }

/-- Modelled from the spec: the Monitor Registry (spec §4.3): the set of
live monitors and the retained set of Stopped monitors, never deleted. -/
structure Registry where
  monitors : List Monitor
  finished : List Monitor
deriving DecidableEq, Repr

/-- Modelled from the spec: the empty registry at session start. -/
def initRegistry : Registry := ⟨[], []⟩

/-- Modelled from the spec: `reconcile(snapshot, now)` (spec §4.3): present
tracked monitors are sampled; tracked monitors whose identifier is absent
from the snapshot are stopped and moved to the retained `finished` set;
snapshot records not yet tracked get a fresh started monitor. -/
def reconcile (snapshot : List ProcessRecord) (now : ℚ) (r : Registry) : Registry :=
  let present := r.monitors.filter (fun m => snapshot.any (fun p => p.pid = m.pid))
  let absent := r.monitors.filter (fun m => ¬ snapshot.any (fun p => p.pid = m.pid))
  let fresh := snapshot.filter (fun p => ¬ r.monitors.any (fun m => m.pid = p.pid))
  { monitors := present.map (sampleMonitor now) ++ fresh.map (fun p => startMonitor p now)
    finished := r.finished ++ absent.map (stopMonitor now) }

/-- Modelled from the spec: sum of the accumulated energy of a list of
monitors. -/
def sumAccum (l : List Monitor) : ℚ := (l.map Monitor.accumulated).sum

/-- Modelled from the spec: `totalEnergy()` (spec §4.3): the sum of
`accumulated` across every monitor ever created, Active and Stopped. -/
def totalEnergy (r : Registry) : ℚ := sumAccum (r.monitors ++ r.finished)

/-- Modelled from the spec: a session is a sequence of reconcile cycles,
each a `(snapshot, now)` pair, applied in order. -/
def runCycles (cycles : List (List ProcessRecord × ℚ)) (r : Registry) : Registry :=
  cycles.foldl (fun acc c => reconcile c.1 c.2 acc) r

/-! ## Helper lemmas -/

theorem sumAccum_append (l₁ l₂ : List Monitor) :
    sumAccum (l₁ ++ l₂) = sumAccum l₁ + sumAccum l₂ := by
  simp [sumAccum]

theorem runCycles_cons (c : List ProcessRecord × ℚ)
    (tl : List (List ProcessRecord × ℚ)) (r : Registry) :
    runCycles (c :: tl) r = runCycles tl (reconcile c.1 c.2 r) := rfl

theorem mem_finished_reconcile (s : List ProcessRecord) (now : ℚ)
    (r : Registry) (m : Monitor) (h : m ∈ r.finished) :
    m ∈ (reconcile s now r).finished := by
  unfold reconcile
  exact List.mem_append_left _ h

theorem finished_retained (more : List (List ProcessRecord × ℚ))
    (r : Registry) (m : Monitor) (h : m ∈ r.finished) :
    m ∈ (runCycles more r).finished := by
  induction more generalizing r with
  | nil => exact h
  | cons c tl ih =>
    rw [runCycles_cons]
    exact ih _ (mem_finished_reconcile c.1 c.2 r m h)

theorem main_report_inversion (argv : List String) (os : OSBehavior)
    (t e : ℚ) (h : (main argv os).outcome = .report t e) :
    ∃ ftK ftU, os.timesResult = some (ftK, ftU) ∧
      t = totalTimeSeconds (fileTimeToULL ftK) (fileTimeToULL ftU) ∧
      e = energiaJoules t := by
  unfold main at h
  split at h
  · simp at h
  · split at h
    · simp at h
    · rcases hres : os.timesResult with _ | ⟨ftK, ftU⟩
      · rw [hres] at h
        simp at h
      · rw [hres] at h
        simp only [MainOutcome.report.injEq] at h
        exact ⟨ftK, ftU, rfl, h.1.symm, by rw [← h.1, ← h.2]⟩

theorem main_success_eq (argv : List String) (os : OSBehavior)
    (ftK ftU : FILETIME) (hlen : 2 ≤ argv.length)
    (hc : os.createOk = true) (ht : os.timesResult = some (ftK, ftU)) :
    main argv os =
      ⟨.report (totalTimeSeconds (fileTimeToULL ftK) (fileTimeToULL ftU))
          (energiaJoules (totalTimeSeconds (fileTimeToULL ftK) (fileTimeToULL ftU))),
        some (argv.getD 1 "", commandLineStr (argv.drop 1))⟩ := by
  unfold main
  rw [if_neg (by omega), hc, ht]
  rfl

/-! ## Claims -/

/-- C10: for every `FILETIME` whose two halves are genuine `DWORD`s,
`fileTimeToULL` returns `dwHighDateTime * 2 ^ 32 + dwLowDateTime`,
reassembling the halves without loss. -/
theorem fileTimeToULL_reassembles (ft : FILETIME)
    (hl : ft.dwLowDateTime < pow32) (hh : ft.dwHighDateTime < pow32) :
    fileTimeToULL ft = ft.dwHighDateTime * 2 ^ 32 + ft.dwLowDateTime := by
  simp only [fileTimeToULL, setHighPart, setLowPart, pow32] at hl hh ⊢
  norm_num at hl hh ⊢
  omega

/-- Witness for C10 at the concrete `FILETIME` (low 1, high 2). -/
theorem fileTimeToULL_reassembles_witness :
    fileTimeToULL ⟨1, 2⟩ = 2 * 2 ^ 32 + 1 :=
  fileTimeToULL_reassembles ⟨1, 2⟩ (by norm_num [pow32]) (by norm_num [pow32])

/-- C3: for every power factor, `energy 0 factor = 0`, and the energy the
program computes (`energiaJoules`) is non-negative for every non-negative
elapsed time. -/
theorem energy_zero_and_nonneg (f t : ℚ) (ht : 0 ≤ t) :
    energy 0 f = 0 ∧ 0 ≤ energiaJoules t := by
  constructor
  · simp [energy]
  · unfold energiaJoules potenciaEstimadaW
    positivity

/-- Witness for C3 at factor 7 and elapsed 3. -/
theorem energy_zero_and_nonneg_witness :
    energy 0 7 = 0 ∧ 0 ≤ energiaJoules 3 :=
  energy_zero_and_nonneg 7 3 (by norm_num)

/-- C4: for the program's fixed power factor, the computed energy is
monotone in elapsed seconds: `0 ≤ a ≤ b` implies
`energiaJoules a ≤ energiaJoules b`. -/
theorem energiaJoules_monotone (a b : ℚ) (h0 : 0 ≤ a) (hab : a ≤ b) :
    energiaJoules a ≤ energiaJoules b := by
  unfold energiaJoules potenciaEstimadaW
  nlinarith

/-- Witness for C4 at elapsed times 1 and 2. -/
theorem energiaJoules_monotone_witness : energiaJoules 1 ≤ energiaJoules 2 :=
  energiaJoules_monotone 1 2 (by norm_num) (by norm_num)

/-- C5 counterexample: at kernel ticks `2 ^ 63` and user ticks `2 ^ 63` the
64-bit sum wraps to 0, so the code's `totalTimeSeconds` is 0 rather than the
claimed `(k + u) / 10 ^ 7`. -/
theorem totalTimeSeconds_overflow_cex :
    totalTimeSeconds (2 ^ 63) (2 ^ 63) ≠ (((2 ^ 63 + 2 ^ 63 : ℕ) : ℚ)) / 10000000 := by
  unfold totalTimeSeconds pow64
  norm_num

/-- C5 (amended: provided the tick sum fits in 64 bits): for all kernel and
user tick counts `k`, `u` with `k + u < 2 ^ 64`,
`totalTimeSeconds k u = (k + u) / 10 ^ 7`. -/
theorem totalTimeSeconds_eq (k u : ℕ) (h : k + u < pow64) :
    totalTimeSeconds k u = ((k : ℚ) + u) / 10000000 := by
  unfold totalTimeSeconds
  rw [Nat.mod_eq_of_lt h]
  push_cast
  ring

/-- Witness for the amended C5 at one CPU second of kernel time. -/
theorem totalTimeSeconds_eq_witness :
    totalTimeSeconds 10000000 0 = ((10000000 : ℚ) + 0) / 10000000 :=
  totalTimeSeconds_eq 10000000 0 (by norm_num [pow64])

/-- C1: in the single-process launch variant, whenever the target process is
launched successfully and its times are read successfully after it exits,
`main` reports exactly one energy figure, computed at process exit as the
total CPU seconds (kernel plus user, converted to seconds) multiplied by the
50-watt power factor; no incremental accumulation occurs. -/
theorem launch_energy_once (argv : List String) (os : OSBehavior)
    (ftK ftU : FILETIME) (hlen : 2 ≤ argv.length)
    (hc : os.createOk = true) (ht : os.timesResult = some (ftK, ftU)) :
    (main argv os).outcome =
      .report (totalTimeSeconds (fileTimeToULL ftK) (fileTimeToULL ftU))
        (totalTimeSeconds (fileTimeToULL ftK) (fileTimeToULL ftU) * potenciaEstimadaW) := by
  unfold main
  rw [if_neg (by omega), hc, ht]
  simp [energiaJoules]

/-- Witness for C1 at a concrete successful run (3 kernel ticks, 7 user
ticks). -/
theorem launch_energy_once_witness :
    (main ["consumo.exe", "notepad.exe"] ⟨true, some (⟨3, 0⟩, ⟨7, 0⟩)⟩).outcome =
      .report (totalTimeSeconds (fileTimeToULL ⟨3, 0⟩) (fileTimeToULL ⟨7, 0⟩))
        (totalTimeSeconds (fileTimeToULL ⟨3, 0⟩) (fileTimeToULL ⟨7, 0⟩) * potenciaEstimadaW) :=
  launch_energy_once ["consumo.exe", "notepad.exe"] ⟨true, some (⟨3, 0⟩, ⟨7, 0⟩)⟩
    ⟨3, 0⟩ ⟨7, 0⟩ (by norm_num) rfl rfl

/-- C2 counterexample: a run reaching the reporting step with one CPU second
reports the figure 50 (Joules), which is not the elapsed time multiplied by
the spec's MWh conversion constant 1.3889e-8. -/
theorem report_not_MWh_cex :
    (main ["consumo.exe", "notepad.exe"]
        ⟨true, some (⟨10000000, 0⟩, ⟨0, 0⟩)⟩).outcome = .report 1 50 ∧
      (50 : ℚ) ≠ 1 * energyUnitSpec := by
  constructor
  · rw [main_success_eq _ _ ⟨10000000, 0⟩ ⟨0, 0⟩ (by norm_num) rfl rfl]
    norm_num [totalTimeSeconds, pow64, fileTimeToULL, setHighPart, setLowPart,
      pow32, energiaJoules, potenciaEstimadaW]
  · norm_num [energyUnitSpec]

/-- C2 (amended: the figure is in Joules, not MWh): for every run that
reaches the reporting step, the reported energy figure equals the CPU
seconds multiplied by the 50-watt power factor, i.e. it is expressed in
Joules; the ≈1.3889e-8 MWh/s conversion constant is not applied. -/
theorem report_in_joules (argv : List String) (os : OSBehavior) (t e : ℚ)
    (h : (main argv os).outcome = .report t e) : e = t * potenciaEstimadaW := by
  obtain ⟨ftK, ftU, _, _, he⟩ := main_report_inversion argv os t e h
  rw [he]
  rfl

/-- Witness for the amended C2 at a concrete reporting run. -/
theorem report_in_joules_witness : (50 : ℚ) = 1 * potenciaEstimadaW :=
  report_in_joules ["consumo.exe", "notepad.exe"]
    ⟨true, some (⟨10000000, 0⟩, ⟨0, 0⟩)⟩ 1 50
    (by simp [main, totalTimeSeconds, pow64, fileTimeToULL, setHighPart,
      setLowPart, pow32, energiaJoules, potenciaEstimadaW])

/-- C6: the energy computation is deterministic and reads nothing beyond the
OS-reported times and the fixed power factor: two runs (with possibly
different argument vectors) in which `GetProcessTimes` reports the same
kernel and user times produce identical reported CPU seconds and energy. -/
theorem energy_deterministic (argv₁ argv₂ : List String)
    (os₁ os₂ : OSBehavior) (t₁ e₁ t₂ e₂ : ℚ)
    (hos : os₁.timesResult = os₂.timesResult)
    (h₁ : (main argv₁ os₁).outcome = .report t₁ e₁)
    (h₂ : (main argv₂ os₂).outcome = .report t₂ e₂) :
    t₁ = t₂ ∧ e₁ = e₂ := by
  obtain ⟨ftK₁, ftU₁, hr₁, ht₁, he₁⟩ := main_report_inversion argv₁ os₁ t₁ e₁ h₁
  obtain ⟨ftK₂, ftU₂, hr₂, ht₂, he₂⟩ := main_report_inversion argv₂ os₂ t₂ e₂ h₂
  rw [hos, hr₂] at hr₁
  obtain ⟨hK, hU⟩ : ftK₂ = ftK₁ ∧ ftU₂ = ftU₁ := by
    have := hr₁
    simp only [Option.some.injEq, Prod.mk.injEq] at this
    exact ⟨this.1, this.2⟩
  subst hK hU
  rw [ht₁, ht₂, he₁, he₂, ht₁, ht₂]
  exact ⟨rfl, rfl⟩

/-- Witness for C6: two runs with different argument vectors but identical
reported times yield identical figures. -/
theorem energy_deterministic_witness : (0 : ℚ) = 0 ∧ (0 : ℚ) = 0 :=
  energy_deterministic ["a", "b"] ["a", "c"]
    ⟨true, some (⟨0, 0⟩, ⟨0, 0⟩)⟩ ⟨true, some (⟨0, 0⟩, ⟨0, 0⟩)⟩
    0 0 0 0 rfl
    (by simp [main, totalTimeSeconds, pow64, fileTimeToULL, setHighPart,
      setLowPart, pow32, energiaJoules, potenciaEstimadaW])
    (by simp [main, totalTimeSeconds, pow64, fileTimeToULL, setHighPart,
      setLowPart, pow32, energiaJoules, potenciaEstimadaW])

/-- C8: with fewer than two arguments `main` prints usage and exits 1
without invoking `CreateProcessA`; a `CreateProcessA` failure exits 1; a
`GetProcessTimes` failure after the child exits exits 1; and the exit code
is 0 exactly when both calls succeed (the reporting path). -/
theorem main_exit_codes (argv : List String) (os : OSBehavior) :
    (argv.length < 2 →
      main argv os = ⟨.usage, none⟩ ∧ exitCode (main argv os).outcome = 1) ∧
    (2 ≤ argv.length → os.createOk = false →
      (main argv os).outcome = .createError ∧ exitCode (main argv os).outcome = 1) ∧
    (2 ≤ argv.length → os.createOk = true → os.timesResult = none →
      (main argv os).outcome = .timesError ∧ exitCode (main argv os).outcome = 1) ∧
    (exitCode (main argv os).outcome = 0 ↔
      2 ≤ argv.length ∧ os.createOk = true ∧
        ∃ ftK ftU, os.timesResult = some (ftK, ftU)) := by
  rcases os with ⟨cok, tr⟩
  refine ⟨?_, ?_, ?_, ?_⟩
  · intro hlt
    rw [main, if_pos hlt]
    exact ⟨rfl, rfl⟩
  · intro hge hc
    subst hc
    rw [main, if_neg (by omega)]
    exact ⟨rfl, rfl⟩
  · intro hge hc htr
    subst hc htr
    rw [main, if_neg (by omega)]
    exact ⟨rfl, rfl⟩
  · constructor
    · intro h0
      by_cases hlt : argv.length < 2
      · rw [main, if_pos hlt] at h0
        simp [exitCode] at h0
      · cases cok with
        | false =>
          rw [main, if_neg hlt] at h0
          simp [exitCode] at h0
        | true =>
          cases tr with
          | none =>
            rw [main, if_neg hlt] at h0
            simp [exitCode] at h0
          | some p =>
            exact ⟨by omega, rfl, p.1, p.2, by rfl⟩
    · rintro ⟨hge, hc, ftK, ftU, htr⟩
      subst hc htr
      rw [main, if_neg (by omega)]
      rfl

/-- Witness for C8: the usage branch at a single-argument invocation. -/
theorem main_exit_codes_witness :
    main ["consumo.exe"] ⟨true, none⟩ = ⟨.usage, none⟩ ∧
      exitCode (main ["consumo.exe"] ⟨true, none⟩).outcome = 1 :=
  (main_exit_codes ["consumo.exe"] ⟨true, none⟩).1 (by norm_num)

theorem intercalate_go_pull (s acc₁ acc₂ : String) (l : List String) :
    String.intercalate.go (acc₁ ++ acc₂) s l =
      acc₁ ++ String.intercalate.go acc₂ s l := by
  induction l generalizing acc₂ with
  | nil => rfl
  | cons a as ih =>
    show String.intercalate.go (acc₁ ++ acc₂ ++ s ++ a) s as =
      acc₁ ++ String.intercalate.go (acc₂ ++ s ++ a) s as
    rw [String.append_assoc, String.append_assoc, ← String.append_assoc acc₂,
      ih]

theorem intercalate_cons_cons (s a b : String) (l : List String) :
    String.intercalate s (a :: b :: l) =
      a ++ s ++ String.intercalate s (b :: l) := by
  show String.intercalate.go a s (b :: l) = a ++ s ++ String.intercalate.go b s l
  show String.intercalate.go (a ++ s ++ b) s l = a ++ s ++ String.intercalate.go b s l
  rw [String.append_assoc a s]
  rw [intercalate_go_pull s a (s ++ b) l]
  rw [intercalate_go_pull s s b l]
  rw [String.append_assoc]

theorem commandLineStr_eq_intercalate (l : List String) :
    commandLineStr l = String.intercalate " " (l.map quoteIfSpaces) := by
  induction l with
  | nil => rfl
  | cons a tl ih =>
    cases tl with
    | nil => rfl
    | cons b rest =>
      show quoteIfSpaces a ++ " " ++ commandLineStr (b :: rest) = _
      rw [ih]
      simp only [List.map_cons]
      rw [intercalate_cons_cons]

/-- C9: for every invocation with at least two arguments, the command line
handed to `CreateProcessA` is `argv[1] .. argv[argc-1]` joined by single
spaces, each argument containing a space being surrounded by double quotes
(`quoteIfSpaces`), and the executable path used is exactly `argv[1]`. -/
theorem createProcess_arguments (argv : List String) (os : OSBehavior)
    (hlen : 2 ≤ argv.length) :
    (main argv os).createCall =
      some (argv.getD 1 "",
        String.intercalate " " ((argv.drop 1).map quoteIfSpaces)) := by
  rcases os with ⟨cok, tr⟩
  unfold main
  rw [if_neg (by omega), commandLineStr_eq_intercalate]
  cases cok <;> rcases tr with _ | ⟨ftK, ftU⟩ <;> rfl

/-- Witness for C9 at a concrete invocation with a space-containing
argument. -/
theorem createProcess_arguments_witness :
    (main ["consumo.exe", "my prog.exe", "x"] ⟨true, none⟩).createCall =
      some ((["consumo.exe", "my prog.exe", "x"] : List String).getD 1 "",
        String.intercalate " "
          (((["consumo.exe", "my prog.exe", "x"] : List String).drop 1).map
            quoteIfSpaces)) :=
  createProcess_arguments ["consumo.exe", "my prog.exe", "x"] ⟨true, none⟩
    (by decide)

/-- C7 (spec-modelled: the multi-process registry is not under `src/`): the
aggregate total is the sum of accumulated energy over all monitors ever
created, Active and Stopped alike; after any sequence of reconcile cycles
`totalEnergy` equals the sum over the current monitors plus the sum over the
retained finished monitors, and a monitor moved to the finished set persists
there, with its frozen accumulated value, through every later cycle — so
removal never subtracts its contribution. -/
theorem totalEnergy_retains_contributions
    (cycles more : List (List ProcessRecord × ℚ)) (m : Monitor) :
    totalEnergy (runCycles cycles initRegistry) =
      sumAccum (runCycles cycles initRegistry).monitors +
        sumAccum (runCycles cycles initRegistry).finished ∧
    (m ∈ (runCycles cycles initRegistry).finished →
      m ∈ (runCycles more (runCycles cycles initRegistry)).finished) :=
  ⟨sumAccum_append _ _, fun h => finished_retained more _ m h⟩

/-- Witness for C7: process 1 observed at time 0 and removed at time 1 ends
up as a finished monitor with 50 units accumulated, still present after a
further cycle at time 2. -/
theorem totalEnergy_retains_contributions_witness :
    (⟨1, "a", 50, 1, false⟩ : Monitor) ∈
      (runCycles [([], 2)]
        (runCycles [([⟨1, "a"⟩], 0), ([], 1)] initRegistry)).finished :=
  (totalEnergy_retains_contributions [([⟨1, "a"⟩], 0), ([], 1)] [([], 2)]
      ⟨1, "a", 50, 1, false⟩).2
    (by norm_num [runCycles, reconcile, initRegistry, startMonitor,
      sampleMonitor, stopMonitor, energy, potenciaEstimadaW])

end Consumo
